import Mathlib

/- Shallow embedding of the edbo Bayesian-optimization driver class `BO`
   (src/edbo/bro.py).  The collaborator modules the driver calls into
   (objective, init_scheme, acq_func, models, base_models) are not part of
   the sources; where the driver crosses into them the behavior is modelled
   from the specification, in definitions whose doc comments start with
   "Modelled from the spec:".  Candidate configurations are identified with
   natural numbers (indices into the domain grid) and outcomes with
   rationals; the driver's control flow is embedded statement by statement
   from bro.py. -/

namespace Edbo

/-- Substring test embedding the Python expression
`'GP' in str(self.base_model)` of bro.py line 293: does the character list
contain 'G' immediately followed by 'P'? -/
def charsHaveGP : List Char → Bool
  | [] => false
  | 'G' :: 'P' :: _ => true
  | _ :: rest => charsHaveGP rest

/-- String form of the `'GP' in str(self.base_model)` test. -/
def strHasGP (s : String) : Bool := charsHaveGP s.toList

/-- Failure taxonomy of the driver (spec section 7). -/
inductive Err where
  | missingObjective
  | emptyData
  | fitError
  | initError
  | insufficientCandidates
  | noProposal
  | attributeError
  deriving DecidableEq, Repr

/-- A distributional prior object (for example GammaPrior(shape, rate) of
bro.py lines 37-39).  The driver only stores and copies it, never reads its
fields. -/
structure PriorDist where
  shape : ℚ
  rate : ℚ
  deriving DecidableEq, Repr

/-- A hyperparameter prior specification exactly as bro.py stores it:
either Python `None`, or a two-element list
`[distribution-or-None, current scalar estimate]`. -/
abbrev PriorSpec := Option (Option PriorDist × ℚ)

/-- A fitted surrogate model (spec section 4.3, consumed contract only):
fitted point estimates of lengthscale, output scale and noise as read back
in bro.py lines 294-296, plus standardized mean and variance predictions
for candidates. -/
structure FittedModel where
  ls : ℚ
  os : ℚ
  noiseEst : ℚ
  predict : ℕ → ℚ
  varianceAt : ℕ → ℚ

/-- State of one `BO` instance: the fields assigned in `BO.__init__`
(bro.py lines 116-150) that the specified operations read or write.
`outcomeSource` collapses the objective's two outcome sources
(`computational_objective` or the `exindex` lookup table) into one optional
lookup function; `none` means neither was supplied.  `fastComp` is the
process-wide fast-computation toggle set through `fast_computation(...)`.
`base_model` is the string representation of the surrogate model class,
used by the `'GP' in str(self.base_model)` test.  `scaler_mean` and
`scaler_std` are the objective's standardizer state (external collaborator,
spec section 1). -/
structure BOState where
  domain : List ℕ
  results : List (ℕ × ℚ)
  outcomeSource : Option (ℕ → ℚ)
  init_method : String
  batch_size : ℕ
  duplicate_experiments : Bool
  fastComp : Bool
  base_model : String
  lengthscale_prior : PriorSpec
  outputscale_prior : PriorSpec
  noise_prior : PriorSpec
  model : Option FittedModel
  proposed_experiments : List ℕ
  scaler_mean : ℚ
  scaler_std : ℚ

/-- Arguments the driver hands to the surrogate constructor in bro.py
lines 215-226 and 314-325 that vary between calls: the training data and
the three prior specifications.  The remaining constructor arguments
(gpu, nu, noise_constraint, restarts, learning rate, iteration count) are
configuration passed through unchanged and do not affect the control-flow
contract. -/
structure FitInput where
  X : List ℕ
  y : List ℚ
  lengthscale_prior : PriorSpec
  outputscale_prior : PriorSpec
  noise_prior : PriorSpec

/-- Modelled from the spec: the surrogate's construct-and-fit capability
(spec section 4.3, "contract only").  `self.base_model(X, y, ...)` followed
by `.fit()` either produces a fitted model or fails (FitError on numerical
divergence); the internals are out of scope, so the whole contract is a
parameter of the embedding. -/
abbrev Fitter := FitInput → Except Err FittedModel

/-- The training input the driver passes to the surrogate constructor:
`self.obj.X, self.obj.y` plus the three current prior specifications
(bro.py lines 215-222 and 314-321). -/
def fitInputOf (s : BOState) : FitInput :=
  ⟨s.results.map Prod.fst, s.results.map Prod.snd,
   s.lengthscale_prior, s.outputscale_prior, s.noise_prior⟩

/-- Modelled from the spec: `objective.clear_results` empties the
ResultSet (spec section 4.1, `clear()`). -/
def clear_results (s : BOState) : BOState := { s with results := [] }

/-- Modelled from the spec: `objective.get_results(batch, append=True)`
resolves each proposed candidate's outcome through the computational
objective or the experiment-index lookup and appends the resolved
observations to the ResultSet; a resolvable outcome source is mandatory in
simulation mode (spec sections 4.1 and 4.5), so with neither source the
call fails (`MissingObjectiveError`) without appending anything. -/
def get_results (s : BOState) (batch : List ℕ) : Except Err Unit × BOState :=
  match s.outcomeSource with
  | none => (Except.error Err.missingObjective, s)
  | some f =>
      (Except.ok (), { s with results := s.results ++ batch.map fun c => (c, f c) })

/-- Modelled from the spec: `Init.run` (init_scheme module, spec section
4.2).  The `external` method is a pass-through returning the externally
supplied configurations already held as results; the sampling methods
(rand, pam, kmeans) choose `batch_size` distinct domain points — the choice
itself is randomized or cluster-based and irrelevant to the driver's
contract, so it is modelled deterministically as the first `batch_size`
domain points — and fail (`InitializationError`) when fewer than
`batch_size` distinct candidates are feasible. -/
def initRun (s : BOState) : Except Err (List ℕ) :=
  if s.init_method = "external" then Except.ok (s.results.map Prod.fst)
  else if s.batch_size ≤ s.domain.length then Except.ok (s.domain.take s.batch_size)
  else Except.error Err.initError

/-- The first statements of `BO.init_sample` (bro.py lines 174-175): the
ResultSet is cleared unless the initialization method is 'external'. -/
def afterClear (s : BOState) : BOState :=
  if s.init_method ≠ "external" then clear_results s else s

/-- `BO.init_sample` (bro.py lines 153-184): clear the ResultSet unless
the initialization method is 'external', run the initialization sequence
storing its batch as the proposed experiments, and append resolved
outcomes only when `append == True` and the method is not 'external'. -/
def init_sample (append : Bool) (s : BOState) : Except Err (List ℕ) × BOState :=
  match initRun (afterClear s) with
  | Except.error e => (Except.error e, afterClear s)
  | Except.ok batch =>
      if append = true ∧ s.init_method ≠ "external" then
        match get_results { afterClear s with proposed_experiments := batch }
            batch with
        | (Except.error e, s3) => (Except.error e, s3)
        | (Except.ok _, s3) => (Except.ok batch, s3)
      else (Except.ok batch,
        { afterClear s with proposed_experiments := batch })

/-- Modelled from the spec: `acquisition.evaluate(model, obj)` (acq_func
module, spec section 4.4).  Every strategy returns `batch_size`
configurations; unless `duplicate_experiments` is enabled, candidates
already present in the ResultSet are excluded from consideration for the
entire batch, and if fewer than `batch_size` eligible candidates remain
the call fails (`InsufficientCandidatesError`).  Which eligible candidates
are scored highest depends on the fitted model and on randomized elements,
so the selection is modelled deterministically as the first `batch_size`
eligible candidates. -/
def acqEvaluate (s : BOState) : Except Err (List ℕ) :=
  let pool := if s.duplicate_experiments then s.domain
              else s.domain.filter fun c => decide (c ∉ s.results.map Prod.fst)
  if s.batch_size ≤ pool.length then Except.ok (pool.take s.batch_size)
  else Except.error Err.insufficientCandidates

/-- `BO.run` (bro.py lines 187-237): construct and fit a fresh surrogate
from the current results and priors, score the domain through the
acquisition function storing the proposal, append resolved outcomes when
`append == True`, and return the proposed batch. -/
def run (fitter : Fitter) (append : Bool) (s : BOState) :
    Except Err (List ℕ) × BOState :=
  match fitter (fitInputOf s) with
  | Except.error e => (Except.error e, s)
  | Except.ok m =>
      let s1 := { s with model := some m }
      match acqEvaluate s1 with
      | Except.error e => (Except.error e, s1)
      | Except.ok batch =>
          let s2 := { s1 with proposed_experiments := batch }
          if append = true then
            match get_results s2 batch with
            | (Except.error e, s3) => (Except.error e, s3)
            | (Except.ok _, s3) => (Except.ok batch, s3)
          else (Except.ok batch, s2)

/-- The `fast_comp` argument of `BO.simulate`: Python overloads one
parameter as either a boolean switch or an integer threshold. -/
inductive FastCompArg where
  | pybool (b : Bool)
  | pyint (n : ℤ)
  deriving DecidableEq, Repr

/-- Python equality `fast_comp == b` against a boolean literal: Python
booleans are integers, so `1 == True` and `0 == False` hold. -/
def pyBoolEq : FastCompArg → Bool → Bool
  | .pybool x, b => x == b
  | .pyint n, b => if b then n == 1 else n == 0

/-- The fast-computation toggle of bro.py lines 284-290: if
`fast_comp == True` enable, elif `fast_comp == False` disable, elif
`fast_comp < len(self.obj.y)` enable; otherwise the process-wide flag is
left as it was. -/
def toggleFast (fc : FastCompArg) (nData : ℕ) (cur : Bool) : Bool :=
  if pyBoolEq fc true then true
  else if pyBoolEq fc false then false
  else match fc with
    | .pyint t => if t < (nData : ℤ) then true else cur
    | .pybool _ => cur

/-- The in-place prior-estimate overwrite of bro.py lines 298-311: a
`None` prior becomes `[None, estimate]`; otherwise only the second slot
(the current estimate) is overwritten, the distributional prior object in
the first slot staying untouched. -/
def carryEstimate (p : PriorSpec) (est : ℚ) : PriorSpec :=
  match p with
  | none => some (none, est)
  | some (d, _) => some (d, est)

/-- Phase (a) of a simulate iteration (bro.py lines 284-290): update the
process-wide fast-computation flag. -/
def togglePhase (fc : FastCompArg) (s : BOState) : BOState :=
  { s with fastComp := toggleFast fc s.results.length s.fastComp }

/-- Phase (b) of a simulate iteration (bro.py lines 292-311): when
`update_priors` is requested, the iteration index is positive and the base
model's string representation contains 'GP', read the previous fit's
lengthscale, output-scale and noise estimates back into the prior
specifications.  Reading `self.model.model...` when the model slot still
holds the unfitted class would raise an attribute error; this situation is
unreachable inside simulate since `i > 0` implies a previous fit. -/
def carryPhase (update_priors : Bool) (i : ℕ) (s : BOState) :
    Except Err BOState :=
  if update_priors = true ∧ 0 < i ∧ strHasGP s.base_model = true then
    match s.model with
    | none => Except.error Err.attributeError
    | some m =>
        Except.ok { s with
          lengthscale_prior := carryEstimate s.lengthscale_prior m.ls,
          outputscale_prior := carryEstimate s.outputscale_prior m.os,
          noise_prior := carryEstimate s.noise_prior m.noiseEst }
  else Except.ok s

/-- Phases (c)-(e) of a simulate iteration (bro.py lines 313-333):
construct and fit a fresh surrogate, score the domain through the
acquisition function storing the proposal, and append the resolved
outcomes to the ResultSet unconditionally. -/
def fitScoreAppend (fitter : Fitter) (s : BOState) : Except Err Unit × BOState :=
  match fitter (fitInputOf s) with
  | Except.error e => (Except.error e, s)
  | Except.ok m =>
      let s2 := { s with model := some m }
      match acqEvaluate s2 with
      | Except.error e => (Except.error e, s2)
      | Except.ok batch =>
          let s3 := { s2 with proposed_experiments := batch }
          match get_results s3 batch with
          | (Except.error e, s4) => (Except.error e, s4)
          | (Except.ok _, s4) => (Except.ok (), s4)

/-- One iteration of the simulate loop body (bro.py lines 282-333). -/
def simulateStep (fitter : Fitter) (fc : FastCompArg) (update_priors : Bool)
    (i : ℕ) (s : BOState) : Except Err Unit × BOState :=
  match carryPhase update_priors i (togglePhase fc s) with
  | Except.error e => (Except.error e, togglePhase fc s)
  | Except.ok s1 => fitScoreAppend fitter s1

/-- The `for i in range(iterations)` loop of `BO.simulate`; an exception
raised inside an iteration propagates, leaving the state the iteration
produced so far. -/
def simLoop (fitter : Fitter) (fc : FastCompArg) (update_priors : Bool) :
    ℕ → ℕ → BOState → Except Err Unit × BOState
  | _, 0, s => (Except.ok (), s)
  | i, Nat.succ n, s =>
      match simulateStep fitter fc update_priors i s with
      | (Except.error e, t) => (Except.error e, t)
      | (Except.ok _, t) => simLoop fitter fc update_priors (i + 1) n t

/-- `BO.simulate` (bro.py lines 240-333): initialization data through
`init_sample(append=True)`, then `iterations` passes of the
toggle / prior-carryover / fit / score / append body. -/
def simulate (fitter : Fitter) (iterations : ℕ) (fc : FastCompArg)
    (update_priors : Bool) (s : BOState) : Except Err Unit × BOState :=
  match init_sample true s with
  | (Except.error e, s1) => (Except.error e, s1)
  | (Except.ok _, s1) => simLoop fitter fc update_priors 0 iterations s1

/-- Ascending comparison on result rows by outcome: the sort key of
`sort_values(self.obj.target)`. -/
def rowLe (a b : ℕ × ℚ) : Prop := a.2 ≤ b.2

instance : DecidableRel rowLe := fun a b => inferInstanceAs (Decidable (a.2 ≤ b.2))

instance : IsTotal (ℕ × ℚ) rowLe := ⟨fun a b => le_total a.2 b.2⟩

instance : IsTrans (ℕ × ℚ) rowLe := ⟨fun _ _ _ h h2 => le_trans h h2⟩

/-- Modelled from pandas semantics: `sort_values(target, ascending=False)`
as called in bro.py line 394.  pandas sorts by an ascending argsort of the
key column and reverses the resulting indexer for descending order; the
default kind 'quicksort' gives no stability promise, and on small inputs
numpy's introsort degenerates to a stable insertion sort, so the observed
behavior is a stable ascending sort followed by reversal. -/
def sort_values_desc (rows : List (ℕ × ℚ)) : List (ℕ × ℚ) :=
  (List.insertionSort rowLe rows).reverse

/-- `BO.best` (bro.py lines 391-395): sort the results table by the target
column descending and return the head (first five rows). -/
def best (s : BOState) : List (ℕ × ℚ) :=
  (sort_values_desc s.results).take 5

/-- `BO.acquisition_summary` (bro.py lines 368-388): work on a copy of the
proposed experiments, compute the model's predicted mean de-standardized
through `scaler.unstandardize` (x ↦ x·std + mean) and the predicted
variance de-standardized as `(sqrt(variance) * std)**2`, and attach both
columns to the copy.  `self.model` initially holds the bare model class;
calling `predict` on it raises an attribute error, embedded here as the
`model = none` branch.  No field of the state is assigned. -/
noncomputable def acquisition_summary (s : BOState) :
    Except Err (List (ℕ × ℝ × ℝ)) × BOState :=
  match s.model with
  | none => (Except.error Err.attributeError, s)
  | some m =>
      (Except.ok (s.proposed_experiments.map fun c =>
        (c, (m.predict c : ℝ) * (s.scaler_std : ℝ) + (s.scaler_mean : ℝ),
            (Real.sqrt (m.varianceAt c : ℝ) * (s.scaler_std : ℝ)) ^ 2)), s)

/-- A concrete configuration used to evaluate the embedded operations:
five-point domain, 'rand' initialization, batch size one, a computational
objective mapping each configuration to its index, default GP priors. -/
def c1State : BOState :=
  { domain := [0, 1, 2, 3, 4]
    results := []
    outcomeSource := some fun c => (c : ℚ)
    init_method := "rand"
    batch_size := 1
    duplicate_experiments := false
    fastComp := false
    base_model := "GP_Model"
    lengthscale_prior := some (some ⟨2, 1/5⟩, 5)
    outputscale_prior := some (some ⟨5, 1/2⟩, 8)
    noise_prior := some (some ⟨3/2, 1/2⟩, 1)
    model := none
    proposed_experiments := []
    scaler_mean := 0
    scaler_std := 1 }

/-- A surrogate fit that always succeeds with fixed hyperparameters. -/
def okFitter : Fitter := fun _ => Except.ok ⟨1, 1, 1, fun _ => 0, fun _ => 0⟩

/-- A surrogate fit that always diverges. -/
def errFitter : Fitter := fun _ => Except.error Err.fitError

/-- A surrogate fit that succeeds on at most one observation and diverges
on the second iteration's larger training set. -/
def failSecondFitter : Fitter := fun inp =>
  if inp.y.length ≤ 1 then Except.ok ⟨1, 1, 1, fun _ => 0, fun _ => 0⟩
  else Except.error Err.fitError

/-- The configuration with pre-existing results but neither a
computational objective nor an experiment index. -/
def c2State : BOState :=
  { c1State with outcomeSource := none, results := [(7, 3)] }

/-- A fitted model with known predictions, for exercising the
acquisition summary. -/
def fittedM : FittedModel := ⟨1, 1, 1, fun _ => 2, fun _ => 1⟩

/-- A configuration whose model slot holds a fitted surrogate and whose
batch of proposed experiments is the single configuration 3. -/
def c7State : BOState :=
  { c1State with model := some fittedM, proposed_experiments := [3] }

/-- A results table with two rows whose outcomes are exactly tied. -/
def c8State : BOState := { c1State with results := [(0, 5), (1, 5)] }

/-- The configuration using 'external' initialization with externally
supplied results. -/
def c9aState : BOState :=
  { c1State with init_method := "external", results := [(9, 2)] }

/-- A fitted model and prior state for exercising prior carryover. -/
def c3State : BOState :=
  { c1State with
    model := some ⟨7, 9, 11, fun _ => 0, fun _ => 0⟩
    outputscale_prior := none }

/-- A successful acquisition proposal has exactly `batch_size`
configurations. -/
theorem acqEvaluate_ok_length {s : BOState} {b : List ℕ}
    (h : acqEvaluate s = Except.ok b) : b.length = s.batch_size := by
  simp only [acqEvaluate] at h
  split at h
  · split at h
    · next hle =>
        injection h with h
        subst h
        rw [List.length_take]
        exact Nat.min_eq_left hle
    · cases h
  · split at h
    · next hle =>
        injection h with h
        subst h
        rw [List.length_take]
        exact Nat.min_eq_left hle
    · cases h

/-- Without duplicate experiments, no configuration of a successful
acquisition proposal is already present in the ResultSet. -/
theorem acqEvaluate_ok_not_mem {s : BOState} {b : List ℕ}
    (hdup : s.duplicate_experiments = false)
    (h : acqEvaluate s = Except.ok b) :
    ∀ c ∈ b, c ∉ s.results.map Prod.fst := by
  simp only [acqEvaluate, hdup, Bool.false_eq_true, if_false] at h
  split at h
  · injection h with h
    subst h
    intro c hc
    have hmem := (List.take_sublist _ _).subset hc
    have hf := List.mem_filter.mp hmem
    simpa using hf.2
  · cases h

/-- A successful outcome resolution appends exactly the resolved batch and
touches no other field. -/
theorem get_results_ok {s : BOState} {batch : List ℕ}
    (h : (get_results s batch).1 = Except.ok ()) :
    ∃ f, s.outcomeSource = some f ∧
      (get_results s batch).2 =
        { s with results := s.results ++ batch.map fun c => (c, f c) } := by
  unfold get_results at *
  cases hs : s.outcomeSource with
  | none => rw [hs] at h; exact Except.noConfusion h
  | some f => exact ⟨f, rfl, rfl⟩

/-- A failed outcome resolution leaves the state untouched. -/
theorem get_results_error {s : BOState} {batch : List ℕ} {e : Err}
    (h : (get_results s batch).1 = Except.error e) :
    (get_results s batch).2 = s := by
  unfold get_results at *
  cases hs : s.outcomeSource with
  | none => rfl
  | some f => rw [hs] at h; exact Except.noConfusion h

/-- Case analysis of the prior-carryover phase: either the carryover
condition fails and the state passes through, or it holds and the priors
are overwritten from the fitted model (an unfitted model slot raising an
attribute error). -/
theorem carryPhase_spec (up : Bool) (i : ℕ) (s : BOState) :
    (¬(up = true ∧ 0 < i ∧ strHasGP s.base_model = true) ∧
        carryPhase up i s = Except.ok s) ∨
      ((up = true ∧ 0 < i ∧ strHasGP s.base_model = true) ∧ s.model = none ∧
        carryPhase up i s = Except.error Err.attributeError) ∨
      (∃ m, (up = true ∧ 0 < i ∧ strHasGP s.base_model = true) ∧
        s.model = some m ∧
        carryPhase up i s = Except.ok { s with
          lengthscale_prior := carryEstimate s.lengthscale_prior m.ls,
          outputscale_prior := carryEstimate s.outputscale_prior m.os,
          noise_prior := carryEstimate s.noise_prior m.noiseEst }) := by
  unfold carryPhase
  by_cases hc : up = true ∧ 0 < i ∧ strHasGP s.base_model = true
  · rw [if_pos hc]
    cases hm : s.model with
    | none => exact Or.inr (Or.inl ⟨hc, rfl, rfl⟩)
    | some m => exact Or.inr (Or.inr ⟨m, hc, rfl, rfl⟩)
  · rw [if_neg hc]
    exact Or.inl ⟨hc, rfl⟩

/-- Case analysis of the fit / score / append phase: failed fit, failed
acquisition, failed outcome resolution, or full success with the batch
appended. -/
theorem fitScoreAppend_spec (fitter : Fitter) (s : BOState) :
    (∃ e, fitScoreAppend fitter s = (Except.error e, s)) ∨
      (∃ m e, fitter (fitInputOf s) = Except.ok m ∧
        fitScoreAppend fitter s = (Except.error e, { s with model := some m })) ∨
      (∃ m batch, fitter (fitInputOf s) = Except.ok m ∧
        acqEvaluate { s with model := some m } = Except.ok batch ∧
        s.outcomeSource = none ∧
        fitScoreAppend fitter s = (Except.error Err.missingObjective,
          { s with model := some m, proposed_experiments := batch })) ∨
      (∃ m batch f, fitter (fitInputOf s) = Except.ok m ∧
        acqEvaluate { s with model := some m } = Except.ok batch ∧
        s.outcomeSource = some f ∧
        fitScoreAppend fitter s = (Except.ok (),
          { s with model := some m, proposed_experiments := batch,
                   results := s.results ++ batch.map fun c => (c, f c) })) := by
  unfold fitScoreAppend
  cases hf : fitter (fitInputOf s) with
  | error e => exact Or.inl ⟨e, rfl⟩
  | ok m =>
    dsimp only
    cases ha : acqEvaluate { s with model := some m } with
    | error e => exact Or.inr (Or.inl ⟨m, e, rfl, rfl⟩)
    | ok batch =>
      dsimp only
      unfold get_results
      cases ho : s.outcomeSource with
      | none =>
          rw [ho] at ha
          exact Or.inr (Or.inr (Or.inl ⟨m, batch, rfl, ha, rfl, rfl⟩))
      | some f =>
          rw [ho] at ha
          exact Or.inr (Or.inr (Or.inr ⟨m, batch, f, rfl, ha, rfl, rfl⟩))

/-- A successful fit / score / append phase grows the ResultSet by
exactly `batch_size` and keeps the batch size itself. -/
theorem fitScoreAppend_ok_length {fitter : Fitter} {s : BOState}
    (h : (fitScoreAppend fitter s).1 = Except.ok ()) :
    ((fitScoreAppend fitter s).2).results.length =
        s.results.length + s.batch_size ∧
      ((fitScoreAppend fitter s).2).batch_size = s.batch_size := by
  rcases fitScoreAppend_spec fitter s with
    ⟨e, heq⟩ | ⟨m, e, _, heq⟩ | ⟨m, batch, _, _, _, heq⟩ |
      ⟨m, batch, f, _, ha, _, heq⟩
  · rw [heq] at h; exact absurd h (by simp)
  · rw [heq] at h; exact absurd h (by simp)
  · rw [heq] at h; exact absurd h (by simp)
  · rw [heq]
    have hb : batch.length = s.batch_size := by
      simpa using acqEvaluate_ok_length ha
    exact ⟨by simp [hb], rfl⟩

/-- A failed fit / score / append phase leaves the ResultSet exactly as it
was: the only mutation of the ResultSet in the phase is the final append,
which happens atomically on success. -/
theorem fitScoreAppend_error_results {fitter : Fitter} {s : BOState} {e : Err}
    (h : (fitScoreAppend fitter s).1 = Except.error e) :
    ((fitScoreAppend fitter s).2).results = s.results := by
  rcases fitScoreAppend_spec fitter s with
    ⟨e2, heq⟩ | ⟨m, e2, _, heq⟩ | ⟨m, batch, _, _, _, heq⟩ |
      ⟨m, batch, f, _, _, _, heq⟩
  · rw [heq]
  · rw [heq]
  · rw [heq]
  · rw [heq] at h; exact absurd h (by simp)

/-- The fit / score / append phase never touches the prior
specifications. -/
theorem fitScoreAppend_priors (fitter : Fitter) (s : BOState) :
    ((fitScoreAppend fitter s).2).lengthscale_prior = s.lengthscale_prior ∧
      ((fitScoreAppend fitter s).2).outputscale_prior = s.outputscale_prior ∧
      ((fitScoreAppend fitter s).2).noise_prior = s.noise_prior := by
  rcases fitScoreAppend_spec fitter s with
    ⟨e, heq⟩ | ⟨m, e, _, heq⟩ | ⟨m, batch, _, _, _, heq⟩ |
      ⟨m, batch, f, _, _, _, heq⟩ <;>
    rw [heq] <;> exact ⟨rfl, rfl, rfl⟩

/-- A successful simulate iteration grows the ResultSet by exactly
`batch_size` and keeps the batch size itself. -/
theorem simulateStep_ok_length {fitter : Fitter} {fc : FastCompArg}
    {up : Bool} {i : ℕ} {s : BOState}
    (h : (simulateStep fitter fc up i s).1 = Except.ok ()) :
    ((simulateStep fitter fc up i s).2).results.length =
        s.results.length + s.batch_size ∧
      ((simulateStep fitter fc up i s).2).batch_size = s.batch_size := by
  unfold simulateStep at h ⊢
  rcases carryPhase_spec up i (togglePhase fc s) with
    ⟨_, heq⟩ | ⟨_, _, heq⟩ | ⟨m, _, _, heq⟩
  · rw [heq] at h ⊢
    simpa [togglePhase] using fitScoreAppend_ok_length h
  · rw [heq] at h
    exact absurd h (by simp)
  · rw [heq] at h ⊢
    simpa [togglePhase] using fitScoreAppend_ok_length h

/-- A failed simulate iteration leaves the ResultSet exactly as the
iteration found it (though the prior estimates may already have been
overwritten before the failure). -/
theorem simulateStep_error_results {fitter : Fitter} {fc : FastCompArg}
    {up : Bool} {i : ℕ} {s : BOState} {e : Err}
    (h : (simulateStep fitter fc up i s).1 = Except.error e) :
    ((simulateStep fitter fc up i s).2).results = s.results := by
  unfold simulateStep at h ⊢
  rcases carryPhase_spec up i (togglePhase fc s) with
    ⟨_, heq⟩ | ⟨_, _, heq⟩ | ⟨m, _, _, heq⟩
  · rw [heq] at h ⊢
    simpa [togglePhase] using fitScoreAppend_error_results h
  · rw [heq]
    rfl
  · rw [heq] at h ⊢
    simpa [togglePhase] using fitScoreAppend_error_results h

/-- A successful simulation loop of `n` iterations grows the ResultSet by
exactly `n * batch_size` and keeps the batch size. -/
theorem simLoop_ok_length (fitter : Fitter) (fc : FastCompArg) (up : Bool) :
    ∀ (n i : ℕ) (s : BOState),
      (simLoop fitter fc up i n s).1 = Except.ok () →
      ((simLoop fitter fc up i n s).2).results.length =
          s.results.length + n * s.batch_size ∧
        ((simLoop fitter fc up i n s).2).batch_size = s.batch_size := by
  intro n
  induction n with
  | zero => intro i s _; simp [simLoop]
  | succ n ih =>
    intro i s h
    unfold simLoop at h ⊢
    cases hstep : simulateStep fitter fc up i s with
    | mk r t =>
      cases r with
      | error e =>
        rw [hstep] at h
        simp at h
      | ok u =>
        cases u
        rw [hstep] at h
        dsimp only at h ⊢
        have hu : (simulateStep fitter fc up i s).1 = Except.ok () := by
          rw [hstep]
        obtain ⟨l1, l2⟩ := simulateStep_ok_length hu
        rw [hstep] at l1 l2
        obtain ⟨h1, h2⟩ := ih (i + 1) t h
        refine ⟨?_, by rw [h2, l2]⟩
        rw [h1, l1, l2]
        ring

/-- A successful `init_sample(append=True)` leaves the ResultSet holding
the passed-through external results, or exactly the freshly resolved
initial batch of `batch_size` observations, and keeps the batch size. -/
theorem init_sample_true_ok {s : BOState} {b : List ℕ}
    (h : (init_sample true s).1 = Except.ok b) :
    ((init_sample true s).2).results.length =
        (if s.init_method = "external" then s.results.length
         else s.batch_size) ∧
      ((init_sample true s).2).batch_size = s.batch_size := by
  by_cases he : s.init_method = "external"
  · simp [init_sample, afterClear, initRun, he]
  · cases ho : s.outcomeSource with
    | none =>
        by_cases hle : s.batch_size ≤ s.domain.length
        · simp [init_sample, afterClear, initRun, get_results, clear_results,
            he, hle, ho] at h
        · simp [init_sample, afterClear, initRun, clear_results, he, hle] at h
    | some f =>
        by_cases hle : s.batch_size ≤ s.domain.length
        · simp [init_sample, afterClear, initRun, get_results, clear_results,
            he, hle, ho, List.length_take, Nat.min_eq_left hle]
        · simp [init_sample, afterClear, initRun, clear_results, he, hle] at h

/-- C1: for every number of iterations N, a successful
`simulate(iterations=N)` leaves the ResultSet holding exactly
(initial batch size) + N * batch_size observations: the initial batch
(the passed-through external results, or `batch_size` freshly resolved
observations) plus the proposed batch's outcomes appended unconditionally
on each of the N fit-score-append iterations, with no early stopping. -/
theorem C1_simulate_resultset_size (fitter : Fitter) (N : ℕ)
    (fc : FastCompArg) (up : Bool) (s : BOState)
    (h : (simulate fitter N fc up s).1 = Except.ok ()) :
    ((simulate fitter N fc up s).2).results.length =
      (if s.init_method = "external" then s.results.length
       else s.batch_size) + N * s.batch_size := by
  unfold simulate at h ⊢
  cases hinit : init_sample true s with
  | mk r s1 =>
    cases r with
    | error e =>
      rw [hinit] at h
      simp at h
    | ok b =>
      rw [hinit] at h
      dsimp only at h ⊢
      have hinit1 : (init_sample true s).1 = Except.ok b := by rw [hinit]
      obtain ⟨i1, i2⟩ := init_sample_true_ok hinit1
      rw [hinit] at i1 i2
      obtain ⟨l1, l2⟩ := simLoop_ok_length fitter fc up N 0 s1 h
      rw [l1, i1, i2]

/-- Witness for C1: a five-point domain with batch size one and two
iterations ends with 1 + 2 * 1 = 3 observations. -/
theorem C1_simulate_resultset_size_witness :
    (simulate okFitter 2 (FastCompArg.pybool false) false c1State).1 =
        Except.ok () ∧
      ((simulate okFitter 2 (FastCompArg.pybool false) false
          c1State).2).results.length =
        (if c1State.init_method = "external" then c1State.results.length
         else c1State.batch_size) + 2 * c1State.batch_size ∧
      (if c1State.init_method = "external" then c1State.results.length
       else c1State.batch_size) + 2 * c1State.batch_size = 3 :=
  ⟨rfl,
   C1_simulate_resultset_size okFitter 2 (FastCompArg.pybool false) false
     c1State rfl,
   by decide⟩

/-- C3: in a simulate iteration, prior carryover happens exactly when
update_priors is requested, the iteration index is positive, and the base
model's string representation contains 'GP'; the previous fit's
lengthscale, output-scale and noise estimates then become the current
estimate (second element) of the corresponding prior specification, a
`None` prior becoming the pair [None, estimate] and a non-None
distributional prior object (first element) staying untouched; otherwise
the prior specifications pass through the iteration unchanged. -/
theorem C3_prior_carryover (fitter : Fitter) (fc : FastCompArg) (up : Bool)
    (i : ℕ) (s : BOState) :
    (∀ m, up = true → 0 < i → strHasGP s.base_model = true →
      s.model = some m →
      ((simulateStep fitter fc up i s).2).lengthscale_prior =
          carryEstimate s.lengthscale_prior m.ls ∧
        ((simulateStep fitter fc up i s).2).outputscale_prior =
          carryEstimate s.outputscale_prior m.os ∧
        ((simulateStep fitter fc up i s).2).noise_prior =
          carryEstimate s.noise_prior m.noiseEst) ∧
      (¬(up = true ∧ 0 < i ∧ strHasGP s.base_model = true) →
        ((simulateStep fitter fc up i s).2).lengthscale_prior =
            s.lengthscale_prior ∧
          ((simulateStep fitter fc up i s).2).outputscale_prior =
            s.outputscale_prior ∧
          ((simulateStep fitter fc up i s).2).noise_prior = s.noise_prior) ∧
      (∀ d e0 est, carryEstimate (some (d, e0)) est = some (d, est)) ∧
      (∀ est, carryEstimate none est = some (none, est)) := by
  refine ⟨?_, ?_, fun d e0 est => rfl, fun est => rfl⟩
  · intro m hup hi hgp hm
    unfold simulateStep
    rcases carryPhase_spec up i (togglePhase fc s) with
      ⟨hnc, heq⟩ | ⟨_, hnone, _⟩ | ⟨m2, _, hsome, heq⟩
    · exact absurd ⟨hup, hi, hgp⟩ hnc
    · rw [show (togglePhase fc s).model = s.model from rfl, hm] at hnone
      cases hnone
    · rw [show (togglePhase fc s).model = s.model from rfl, hm] at hsome
      injection hsome with hm2
      subst hm2
      rw [heq]
      dsimp only
      obtain ⟨p1, p2, p3⟩ := fitScoreAppend_priors fitter _
      exact ⟨p1, p2, p3⟩
  · intro hnc
    unfold simulateStep
    rcases carryPhase_spec up i (togglePhase fc s) with
      ⟨_, heq⟩ | ⟨hc, _, _⟩ | ⟨m2, hc, _, heq⟩
    · rw [heq]
      dsimp only
      exact fitScoreAppend_priors fitter _
    · exact absurd hc hnc
    · exact absurd hc hnc

/-- Witness for C3: with update_priors on at iteration 1 of a GP model
whose previous fit gave estimates 7, 9, 11, the lengthscale and noise
priors keep their Gamma objects with the new estimates, and the `None`
output-scale prior becomes the pair [None, 9]. -/
theorem C3_prior_carryover_witness :
    ((simulateStep okFitter (FastCompArg.pybool false) true 1
        c3State).2).lengthscale_prior = some (some ⟨2, 1/5⟩, 7) ∧
      ((simulateStep okFitter (FastCompArg.pybool false) true 1
        c3State).2).outputscale_prior = some (none, 9) ∧
      ((simulateStep okFitter (FastCompArg.pybool false) true 1
        c3State).2).noise_prior = some (some ⟨3/2, 1/2⟩, 11) := by
  obtain ⟨pos, _, _, _⟩ :=
    C3_prior_carryover okFitter (FastCompArg.pybool false) true 1 c3State
  obtain ⟨q1, q2, q3⟩ :=
    pos ⟨7, 9, 11, fun _ => 0, fun _ => 0⟩ rfl (by decide) (by decide) rfl
  refine ⟨?_, ?_, ?_⟩
  · rw [q1]; rfl
  · rw [q2]; rfl
  · rw [q3]; rfl

/-- C4 (code bug): the fast-computation toggle of bro.py lines 284-290
contradicts the documented threshold semantics for the integer thresholds
0 and 1, because Python's `fast_comp == True` and `fast_comp == False`
also match the integers 1 and 0: with threshold 0 and five observations
the mode is disabled although 5 > 0, and with threshold 1 and zero
observations the mode is enabled although the ResultSet size does not
exceed 1; for other integers the documented semantics holds, as the last
two conjuncts illustrate. -/
theorem C4_fast_comp_threshold_bug :
    toggleFast (FastCompArg.pyint 0) 5 true = false ∧
      toggleFast (FastCompArg.pyint 1) 0 false = true ∧
      toggleFast (FastCompArg.pyint 2) 5 false = true ∧
      toggleFast (FastCompArg.pyint 7) 5 false = false := by decide

/-- C5: after a successful `run(append=True)` with duplicate experiments
disabled, the ResultSet has grown by exactly `batch_size`, and every
configuration of the returned batch is absent from the pre-call
ResultSet. -/
theorem C5_run_append (fitter : Fitter) (s : BOState) (batch : List ℕ)
    (hdup : s.duplicate_experiments = false)
    (h : (run fitter true s).1 = Except.ok batch) :
    ((run fitter true s).2).results.length =
        s.results.length + s.batch_size ∧
      ∀ c ∈ batch, c ∉ s.results.map Prod.fst := by
  unfold run at h ⊢
  cases hf : fitter (fitInputOf s) with
  | error e =>
    rw [hf] at h
    simp at h
  | ok m =>
    rw [hf] at h
    dsimp only at h ⊢
    cases ha : acqEvaluate { s with model := some m } with
    | error e =>
      rw [ha] at h
      simp at h
    | ok b =>
      rw [ha] at h
      dsimp only at h ⊢
      rw [if_pos rfl] at h ⊢
      unfold get_results at h ⊢
      dsimp only at h ⊢
      cases ho : s.outcomeSource with
      | none =>
        rw [ho] at h
        simp at h
      | some f =>
        rw [ho] at h
        dsimp only at h ⊢
        injection h with hb
        subst hb
        have hlen : b.length = s.batch_size := by
          simpa using acqEvaluate_ok_length ha
        have hmem := acqEvaluate_ok_not_mem
          (s := { s with model := some m }) hdup ha
        exact ⟨by simp [hlen], fun c hc => hmem c hc⟩

/-- Witness for C5: one `run(append=True)` on the concrete configuration
proposes a batch disjoint from the single prior observation and grows the
ResultSet from one to two observations. -/
theorem C5_run_append_witness :
    (run okFitter true c8State).1 = Except.ok [2] ∧
      ((run okFitter true c8State).2).results.length =
        c8State.results.length + c8State.batch_size ∧
      ∀ c ∈ [2], c ∉ c8State.results.map Prod.fst := by
  have h := C5_run_append okFitter c8State [2] rfl rfl
  exact ⟨rfl, h.1, h.2⟩

/-- C6 (amended): a failing simulate iteration performs no partial append
to the ResultSet — whatever step of the iteration fails, the iteration
leaves the ResultSet exactly as it found it (the prior estimates, by
contrast, may already have been overwritten before a failing fit, and
mutations of earlier completed iterations and of the initialization are
not rolled back, as the counterexample shows). -/
theorem C6_step_failure_no_partial_append (fitter : Fitter)
    (fc : FastCompArg) (up : Bool) (i : ℕ) (s : BOState) (e : Err)
    (h : (simulateStep fitter fc up i s).1 = Except.error e) :
    ((simulateStep fitter fc up i s).2).results = s.results :=
  simulateStep_error_results h

/-- Witness for C6: an iteration whose fit diverges leaves the one-row
ResultSet untouched. -/
theorem C6_step_failure_no_partial_append_witness :
    (simulateStep errFitter (FastCompArg.pybool false) false 0 c8State).1 =
        Except.error Err.fitError ∧
      ((simulateStep errFitter (FastCompArg.pybool false) false 0
          c8State).2).results = c8State.results :=
  ⟨rfl,
   C6_step_failure_no_partial_append errFitter (FastCompArg.pybool false)
     false 0 c8State Err.fitError rfl⟩

/-- Counterexample for C6 as stated: when the second simulate iteration's
fit diverges, the call aborts, but the ResultSet is NOT left in its
pre-call state — the initialization batch and the first iteration's batch
remain appended (the pre-call ResultSet was empty; the aborted call leaves
two observations). -/
theorem C6_counterexample :
    (simulate failSecondFitter 2 (FastCompArg.pybool false) false
        c1State).1 = Except.error Err.fitError ∧
      ((simulate failSecondFitter 2 (FastCompArg.pybool false) false
          c1State).2).results ≠ c1State.results ∧
      ((simulate failSecondFitter 2 (FastCompArg.pybool false) false
          c1State).2).results.length = 2 :=
  ⟨rfl, by decide, rfl⟩

/-- C2 (amended): when neither a computational objective nor an
experiment index is available and the initialization method samples (is
not 'external'), every simulate call fails with MissingObjectiveError —
but only after initialization has run: the ResultSet has already been
cleared and the initial batch sampled when the first outcome-resolution
call fails, so the call ends with an empty ResultSet, not the pre-call
one. -/
theorem C2_simulate_missing_objective (fitter : Fitter) (N : ℕ)
    (fc : FastCompArg) (up : Bool) (s : BOState)
    (hsrc : s.outcomeSource = none) (he : s.init_method ≠ "external")
    (hbs : s.batch_size ≤ s.domain.length) :
    (simulate fitter N fc up s).1 = Except.error Err.missingObjective ∧
      ((simulate fitter N fc up s).2).results = [] := by
  have h1 : (init_sample true s).1 = Except.error Err.missingObjective := by
    simp [init_sample, afterClear, initRun, get_results, clear_results,
      he, hbs, hsrc]
  have h2 : ((init_sample true s).2).results = [] := by
    simp [init_sample, afterClear, initRun, get_results, clear_results,
      he, hbs, hsrc]
  unfold simulate
  cases hinit : init_sample true s with
  | mk r s1 =>
    rw [hinit] at h1 h2
    dsimp only at h1 h2
    subst h1
    exact ⟨rfl, h2⟩

/-- Witness for C2 (amended) at the concrete source-less configuration. -/
theorem C2_simulate_missing_objective_witness :
    (simulate okFitter 3 (FastCompArg.pybool false) false c2State).1 =
        Except.error Err.missingObjective ∧
      ((simulate okFitter 3 (FastCompArg.pybool false) false
          c2State).2).results = [] :=
  C2_simulate_missing_objective okFitter 3 (FastCompArg.pybool false) false
    c2State rfl (by decide) (by decide)

/-- Counterexample for C2 as stated: a BO instance without either outcome
source does fail with MissingObjectiveError, but not before performing
initialization — the pre-call ResultSet (one row) has been cleared by the
initialization sequence by the time simulate aborts. -/
theorem C2_counterexample :
    (simulate okFitter 1 (FastCompArg.pybool false) false c2State).1 =
        Except.error Err.missingObjective ∧
      ((simulate okFitter 1 (FastCompArg.pybool false) false
          c2State).2).results ≠ c2State.results :=
  ⟨rfl, by decide⟩

/-- C7 (amended): `acquisition_summary` performs no proposal check and
assigns no state: it always returns the state unchanged; before any model
has been fitted it fails with the attribute error raised by calling
predict on the bare model class (whether or not a batch has been
proposed); with a fitted surrogate it returns the stored batch with the
de-standardized predicted mean (prediction * std + mean) and the
de-standardized predictive variance ((sqrt variance * std)^2) attached. -/
theorem C7_acquisition_summary (s : BOState) :
    (acquisition_summary s).2 = s ∧
      (s.model = none →
        (acquisition_summary s).1 = Except.error Err.attributeError) ∧
      ∀ m, s.model = some m →
        (acquisition_summary s).1 = Except.ok (s.proposed_experiments.map
          fun c =>
            (c, (m.predict c : ℝ) * (s.scaler_std : ℝ) + (s.scaler_mean : ℝ),
              (Real.sqrt (m.varianceAt c : ℝ) * (s.scaler_std : ℝ)) ^ 2)) := by
  refine ⟨?_, ?_, ?_⟩
  · unfold acquisition_summary
    cases s.model <;> rfl
  · intro hm
    unfold acquisition_summary
    rw [hm]
  · intro m hm
    unfold acquisition_summary
    rw [hm]

/-- Witness for C7 (amended): with a fitted surrogate predicting mean 2
and variance 1 under an identity standardizer, the summary attaches the
columns 2 and 1 to the proposed configuration 3, and the state is
untouched. -/
theorem C7_acquisition_summary_witness :
    (acquisition_summary c7State).1 = Except.ok [(3, (2 : ℝ), (1 : ℝ))] ∧
      (acquisition_summary c7State).2 = c7State := by
  have h := C7_acquisition_summary c7State
  refine ⟨?_, h.1⟩
  rw [h.2.2 fittedM rfl]
  norm_num [c7State, c1State, fittedM, Real.sqrt_one]

/-- Counterexample for C7 as stated: called before any batch has been
proposed (fresh instance, empty proposal, unfitted model slot), the
summary does fail — but with the attribute error from the unfitted model
slot, not with NoProposalError; no proposal check exists in the code. -/
theorem C7_counterexample :
    (acquisition_summary c1State).1 = Except.error Err.attributeError ∧
      (acquisition_summary c1State).1 ≠ Except.error Err.noProposal := by
  have h1 : (acquisition_summary c1State).1 =
      Except.error Err.attributeError := rfl
  refine ⟨h1, ?_⟩
  rw [h1]
  intro hcontra
  injection hcontra with h2
  exact Err.noConfusion h2

/-- C8 (amended): `best` returns (up to) the first five rows of the
results table sorted by outcome in descending order — a permutation of
the table is sorted and its head taken — but the relative order of rows
with exactly equal outcomes is NOT the insertion order: pandas realizes
the descending sort by reversing an ascending argsort, which reverses
tied runs (and the default quicksort gives no stability promise at
all). -/
theorem C8_best_sorted (s : BOState) :
    (best s).Sorted (fun a b : ℕ × ℚ => b.2 ≤ a.2) ∧
      (sort_values_desc s.results).Perm s.results ∧
      (best s).Sublist (sort_values_desc s.results) := by
  refine ⟨?_, ?_, List.take_sublist _ _⟩
  · have hs : (List.insertionSort rowLe s.results).Sorted rowLe :=
      List.sorted_insertionSort rowLe s.results
    have hrev : (sort_values_desc s.results).Pairwise
        fun a b : ℕ × ℚ => rowLe b a := by
      unfold sort_values_desc
      exact List.pairwise_reverse.mpr hs
    exact hrev.sublist (List.take_sublist _ _)
  · exact (List.reverse_perm _).trans
      (List.perm_insertionSort rowLe s.results)

/-- Counterexample for C8 as stated: two rows inserted in the order
(0, 5), (1, 5) carry exactly equal outcomes, yet `best` returns them in
the order (1, 5), (0, 5) — the reverse of insertion order, refuting the
stable tie-break. -/
theorem C8_counterexample :
    best c8State = [(1, (5 : ℚ)), (0, 5)] ∧
      best c8State ≠ [(0, (5 : ℚ)), (1, 5)] := by
  constructor
  · decide
  · decide

/-- C9: `init_sample` clears the ResultSet before sampling for every
initialization method except 'external' (the post-call ResultSet is
whatever it would be had the pre-call ResultSet already been empty, and
with append off it is empty); with 'external' the pre-call ResultSet is
left entirely unchanged and the call passes the externally supplied
configurations straight through. -/
theorem C9_init_sample_clear (ap : Bool) (s : BOState) :
    (s.init_method = "external" →
      ((init_sample ap s).2).results = s.results ∧
        (init_sample ap s).1 = Except.ok (s.results.map Prod.fst)) ∧
      (s.init_method ≠ "external" →
        (init_sample ap s).2 = (init_sample ap (clear_results s)).2 ∧
          ((init_sample false s).2).results = []) := by
  constructor
  · intro he
    have hA : afterClear s = s := by
      unfold afterClear
      rw [if_neg (not_not_intro he)]
    constructor
    · simp [init_sample, hA, initRun, he]
    · simp [init_sample, hA, initRun, he]
  · intro he
    constructor
    · have hA1 : afterClear s = clear_results s := by
        unfold afterClear
        rw [if_pos he]
      have hA2 : afterClear (clear_results s) = clear_results s := by
        unfold afterClear
        rw [if_pos (show (clear_results s).init_method ≠ "external" from he)]
        rfl
      unfold init_sample
      rw [hA1, hA2]
      rfl
    · by_cases hbs : s.batch_size ≤ s.domain.length
      · simp [init_sample, afterClear, initRun, clear_results, he, hbs]
      · simp [init_sample, afterClear, initRun, clear_results, he, hbs]

/-- Witness for C9: with 'external' the results table of one row is
passed through untouched and its configuration returned; with 'rand' and
append off the pre-call row is gone and the ResultSet comes back
empty. -/
theorem C9_init_sample_clear_witness :
    ((init_sample true c9aState).2).results = c9aState.results ∧
      (init_sample true c9aState).1 =
        Except.ok (c9aState.results.map Prod.fst) ∧
      ((init_sample false c2State).2).results = [] := by
  have h1 := (C9_init_sample_clear true c9aState).1 rfl
  have h2 := (C9_init_sample_clear false c2State).2 (by decide)
  exact ⟨h1.1, h1.2, h2.2⟩

/-- C10: `init_sample` appends resolved outcomes to the ResultSet only
when the append argument is True AND the initialization method is not
'external': with append False nothing is appended (the ResultSet is the
passed-through external table or the empty cleared one), and with method
'external' even `init_sample(append=True)` appends nothing. -/
theorem C10_init_sample_append_guard (s : BOState) :
    (s.init_method = "external" →
      ((init_sample true s).2).results = s.results) ∧
      ∀ ap : Bool, ap = false →
        ((init_sample ap s).2).results =
          (if s.init_method = "external" then s.results else []) := by
  constructor
  · intro he
    have hA : afterClear s = s := by
      unfold afterClear
      rw [if_neg (not_not_intro he)]
    simp [init_sample, hA, initRun, he]
  · intro ap hap
    subst hap
    by_cases he : s.init_method = "external"
    · have hA : afterClear s = s := by
        unfold afterClear
        rw [if_neg (not_not_intro he)]
      simp [init_sample, hA, initRun, he]
    · by_cases hbs : s.batch_size ≤ s.domain.length
      · simp [init_sample, afterClear, initRun, clear_results, he, hbs]
      · simp [init_sample, afterClear, initRun, clear_results, he, hbs]

/-- Witness for C10: external with append on leaves the one-row table
untouched; rand with append off leaves the ResultSet empty. -/
theorem C10_init_sample_append_guard_witness :
    ((init_sample true c9aState).2).results = c9aState.results ∧
      ((init_sample false c1State).2).results =
        (if c1State.init_method = "external" then c1State.results
         else []) :=
  ⟨(C10_init_sample_append_guard c9aState).1 rfl,
   (C10_init_sample_append_guard c1State).2 false rfl⟩

end Edbo
